import Mathlib

/-!
# Nowde firmware — shallow embedding and verification

A shallow embedding of the Nowde ESP-NOW/USB-MIDI bridge firmware
(`src/Nowde/src`), covering the SysEx wire codec, the SysEx command
router, the sender-side receiver table, and the receiver-side media
sync engine, together with theorems checking the natural-language
specification against this embedding.

Modelling conventions:
* raw bytes are `Nat` values, implicitly `< 256` (hypotheses state the
  bound where a proof needs it); `x & 0x7F` is modelled as `x % 128`,
  `x & 0xFF` as `x % 256`, and a test `x & (1 << i)` as `x / 2^i % 2 = 1`;
* 32-bit unsigned arithmetic (`uint32_t`, and `unsigned long` on the
  ESP32 target) is `Nat` arithmetic reduced `% 2^32` where the source
  can wrap; `int32_t` casts go through `toInt32`;
* fixed C arrays (`mac[6]`, `layer[16]`, `version[8]`) are `List Nat`
  of that length; `strncpy`/`strncmp` are modelled byte-faithfully;
* the tables (`senderTable[10]`, `receiverTable[10]`,
  `delayedPackets[20]`) are lists whose slots carry their `active`
  flags, exactly as in the source;
* `millis()`, `meshClock.meshMillis()`, `esp_reset_reason()` and the
  `random(...)` delay source are inputs, passed in an `Env` record;
* emitted MIDI CC messages, host-bound SysEx messages and outbound
  ESP-NOW datagrams are collected as explicit outputs.
-/

/-- One MIDI control-change event as produced by `midiSendCC100`
(`midi.cpp`): `MIDI.controlChange(100, value, 1)`. -/
structure CCEvent where
  controller : Nat
  value : Nat
  channel : Nat
deriving Repr, DecidableEq

/-- `midiSendCC100` (`midi.cpp` line 17): CC#100 with the given value on
channel 1. -/
def midiSendCC100 (value : Nat) : CCEvent :=
  { controller := 100, value := value, channel := 1 }

/-! ## 7-bit encoding (`sysex.cpp` lines 23–70) -/

/-- The MSB byte of one encode group (`sysex.cpp` lines 29–37): bit `i`
of the result carries bit 7 of raw byte `i` of the chunk. -/
def msbOf : List Nat → Nat
  | [] => 0
  | b :: rest => b / 128 % 2 + 2 * msbOf rest

/-- `encode7bit` (`sysex.cpp` lines 23–46): for each group of up to 7 raw
bytes, emit the MSB byte followed by the group with bit 7 cleared. -/
def encode7bit : List Nat → List Nat
  | [] => []
  | b :: rest =>
      msbOf ((b :: rest).take 7) ::
        (((b :: rest).take 7).map (· % 128) ++ encode7bit ((b :: rest).drop 7))
termination_by l => l.length
decreasing_by simp [List.length_drop]; omega

/-- One decode group (`sysex.cpp` lines 58–66): each data byte gets bit 7
restored from the corresponding bit of the MSB byte. -/
def decodeChunk (msb : Nat) : List Nat → List Nat
  | [] => []
  | c :: rest =>
      (if msb % 2 = 1 then c ||| 128 else c) :: decodeChunk (msb / 2) rest

/-- `decode7bit` (`sysex.cpp` lines 49–70): read an MSB byte, then up to
7 data bytes with their MSBs restored; repeat. -/
def decode7bit : List Nat → List Nat
  | [] => []
  | msb :: rest => decodeChunk msb (rest.take 7) ++ decode7bit (rest.drop 7)
termination_by l => l.length
decreasing_by simp [List.length_drop]; omega

set_option maxRecDepth 4096 in
theorem byte_lor_128 : ∀ b : Nat, b < 256 → 128 ≤ b → b % 128 ||| 128 = b := by
  decide

theorem decodeChunk_msbOf (chunk : List Nat) (h : ∀ b ∈ chunk, b < 256) :
    decodeChunk (msbOf chunk) (chunk.map (· % 128)) = chunk := by
  induction chunk with
  | nil => rfl
  | cons b rest ih =>
      have hb : b < 256 := h b (List.mem_cons_self b rest)
      have hrest : ∀ x ∈ rest, x < 256 := fun x hx => h x (List.mem_cons_of_mem b hx)
      simp only [List.map_cons, decodeChunk, msbOf]
      congr 1
      · by_cases hge : 128 ≤ b
        · have h1 : (b / 128 % 2 + 2 * msbOf rest) % 2 = 1 := by omega
          rw [if_pos h1]
          exact byte_lor_128 b hb hge
        · have h0 : ¬ (b / 128 % 2 + 2 * msbOf rest) % 2 = 1 := by omega
          rw [if_neg h0]
          omega
      · have hdiv : (b / 128 % 2 + 2 * msbOf rest) / 2 = msbOf rest := by omega
        rw [hdiv]
        exact ih hrest

theorem decode7bit_encode7bit_aux :
    ∀ n (l : List Nat), l.length ≤ n → (∀ b ∈ l, b < 256) →
      decode7bit (encode7bit l) = l := by
  intro n
  induction n with
  | zero =>
      intro l hl _
      have hnil : l = [] := List.length_eq_zero.mp (Nat.le_zero.mp hl)
      subst hnil
      simp [encode7bit, decode7bit]
  | succ n ih =>
      intro l hl hb
      match l with
      | [] => simp [encode7bit, decode7bit]
      | a :: rest =>
          rw [encode7bit, decode7bit]
          have hchunk : ∀ x ∈ (a :: rest).take 7, x < 256 :=
            fun x hx => hb x (List.mem_of_mem_take hx)
          have hdroplen : ((a :: rest).drop 7).length ≤ n := by
            simp only [List.length_drop, List.length_cons]
            simp only [List.length_cons] at hl
            omega
          have hdropmem : ∀ x ∈ (a :: rest).drop 7, x < 256 :=
            fun x hx => hb x (List.mem_of_mem_drop hx)
          by_cases hlen : (a :: rest).length ≤ 7
          · have hdropnil : (a :: rest).drop 7 = [] := List.drop_eq_nil_of_le hlen
            have htake : (a :: rest).take 7 = a :: rest := List.take_of_length_le hlen
            have hmaplen : (((a :: rest).take 7).map (· % 128)).length ≤ 7 := by
              simp only [List.length_map, List.length_take]
              omega
            rw [hdropnil]
            simp only [encode7bit, List.append_nil]
            rw [List.take_of_length_le hmaplen, List.drop_eq_nil_of_le hmaplen]
            simp only [decode7bit, List.append_nil]
            rw [decodeChunk_msbOf _ hchunk, htake]
          · have hmaplen : (((a :: rest).take 7).map (· % 128)).length = 7 := by
              simp only [List.length_map, List.length_take]
              omega
            rw [List.take_left' hmaplen, List.drop_left' hmaplen]
            rw [decodeChunk_msbOf _ hchunk, ih _ hdroplen hdropmem]
            exact List.take_append_drop 7 (a :: rest)

/-- C5: round-trip of the 7-bit encoding: decoding the encoding of any
byte slice yields the slice again. -/
theorem decode7bit_encode7bit (l : List Nat) (h : ∀ b ∈ l, b < 256) :
    decode7bit (encode7bit l) = l :=
  decode7bit_encode7bit_aux l.length l (Nat.le_refl _) h

/-- Witness for C5 at a concrete 9-byte slice mixing bytes with and
without their MSB set. -/
theorem decode7bit_encode7bit_witness :
    (∀ b ∈ [0, 127, 128, 255, 1, 66, 200, 7, 99], b < 256) ∧
      decode7bit (encode7bit [0, 127, 128, 255, 1, 66, 200, 7, 99]) =
        [0, 127, 128, 255, 1, 66, 200, 7, 99] :=
  ⟨by decide, decode7bit_encode7bit [0, 127, 128, 255, 1, 66, 200, 7, 99] (by decide)⟩

/-! ## Machine arithmetic helpers -/

/-- 32-bit unsigned subtraction `a - b` (wraps modulo `2^32`), as in
`currentMeshTime - syncPacket->meshTimestamp` and the
`millis() - lastSeen` timeout comparisons. -/
def u32sub (a b : Nat) : Nat :=
  (a % 2 ^ 32 + 2 ^ 32 - b % 2 ^ 32) % 2 ^ 32

/-- Reinterpret a 32-bit unsigned value as `int32_t`. -/
def toInt32 (n : Nat) : Int :=
  if n % 2 ^ 32 < 2 ^ 31 then (n % 2 ^ 32 : Int) else (n % 2 ^ 32 : Int) - 2 ^ 32

/-- Big-endian byte decomposition of a 32-bit value, as written by
`(x >> 24) & 0xFF`, `(x >> 16) & 0xFF`, `(x >> 8) & 0xFF`, `x & 0xFF`. -/
def be32 (x : Nat) : List Nat :=
  [x % 2 ^ 32 / 2 ^ 24 % 256, x % 2 ^ 32 / 2 ^ 16 % 256,
   x % 2 ^ 32 / 2 ^ 8 % 256, x % 2 ^ 32 % 256]

/-! ## C string helpers -/

/-- `strncpy(dst, src, n)` semantics on a byte list: copy up to `n`
bytes, stopping at the first null, then pad the remainder with nulls.
(When `src` has no null among its first `n` bytes, all `n` are copied
and no terminator is added, exactly as in C.) -/
def strncpyN (n : Nat) (src : List Nat) : List Nat :=
  match n, src with
  | 0, _ => []
  | n + 1, [] => List.replicate (n + 1) 0
  | n + 1, c :: rest =>
      if c = 0 then List.replicate (n + 1) 0 else c :: strncpyN n rest

/-- `strncmp(a, b, 16) == 0` on two 16-byte layer fields: bytes are
compared pairwise until a difference, a null in both, or 16 bytes. -/
def strncmpEq16 (a b : List Nat) : Bool :=
  match a, b with
  | x :: xs, y :: ys =>
      if x ≠ y then false else if x = 0 then true else strncmpEq16 xs ys
  | _, _ => true

/-- `strlen` on a byte list: number of bytes before the first null. -/
def strlenL : List Nat → Nat
  | [] => 0
  | c :: rest => if c = 0 then 0 else strlenL rest + 1

/-- `macEqual` (`nowde_state.cpp`): compare the 6 bytes of two MACs. -/
def macEqual (a b : List Nat) : Bool :=
  (List.range 6).all fun i => a.getD i 0 == b.getD i 0

/-! ## Data model (`nowde_config.h`) -/

/-- `MediaSyncPacket` (`nowde_config.h` lines 71–78), at field level
(the packed wire layout is not needed by any claim). -/
structure MediaSyncPacket where
  layer : List Nat
  mediaIndex : Nat
  positionMs : Nat
  state : Nat
  meshTimestamp : Nat
deriving Repr, DecidableEq

/-- `ReceiverInfo` (`nowde_config.h` lines 63–68). -/
structure ReceiverInfo where
  layer : List Nat
  version : List Nat
  mediaIndex : Nat
deriving Repr, DecidableEq

/-- `SenderEntry` (`nowde_config.h` lines 80–84). -/
structure SenderEntry where
  mac : List Nat
  lastSeen : Nat
  active : Bool
deriving Repr, DecidableEq

/-- `ReceiverEntry` (`nowde_config.h` lines 86–94). -/
structure ReceiverEntry where
  mac : List Nat
  layer : List Nat
  version : List Nat
  lastSeen : Nat
  active : Bool
  connected : Bool
  mediaIndex : Nat
deriving Repr, DecidableEq

/-- `MediaSyncState` (`nowde_config.h` lines 96–105).
`lastCC100SendTime` is the field used by `receiver_mode.cpp` lines
107/118/126/128 for the periodic CC#100 resend. -/
structure MediaSyncState where
  currentIndex : Nat := 0
  currentPositionMs : Nat := 0
  currentState : Nat := 0
  lastSyncTime : Nat := 0
  localClockStartTime : Nat := 0
  lastMTCUpdateTime : Nat := 0
  linkLost : Bool := false
  stopOnLinkLost : Bool := true
  lastSentIndex : Nat := 255
  lastCC100SendTime : Nat := 0
deriving Repr, DecidableEq

/-- `LINK_LOST_TIMEOUT_MS` (`nowde_config.h` line 107). -/
def LINK_LOST_TIMEOUT_MS : Nat := 3000

/-- `CLOCK_DESYNC_THRESHOLD_MS` (`nowde_config.h` line 108). -/
def CLOCK_DESYNC_THRESHOLD_MS : Nat := 200

/-- `RECEIVER_TIMEOUT_MS` (`nowde_config.h` line 11). -/
def RECEIVER_TIMEOUT_MS : Nat := 5000

/-! ## Receiver sync engine (`receiver_mode.cpp` lines 56–138) -/

/-- `processMediaSyncPacket` (`receiver_mode.cpp` lines 56–138), from the
layer filter onward (the `len < sizeof(MediaSyncPacket)` guard precedes
the struct view and is outside this field-level model).  Inputs: the
subscribed layer, the `CC100_REPEAT_INTERVAL_MS` build constant (its
defining header is not part of `src/`; every claim below holds for all
its values), the packet, the current `mediaSyncState`, the mesh-clock
reading and `millis()`.  Output: the new state and the CC messages
emitted, in order. -/
def processMediaSyncPacket (subscribedLayer : List Nat) (ccRepeatIntervalMs : Nat)
    (p : MediaSyncPacket) (s : MediaSyncState) (meshNow now : Nat) :
    MediaSyncState × List CCEvent :=
  if ¬ strncmpEq16 p.layer subscribedLayer then (s, [])
  else
    let timeDelta : Int := toInt32 (u32sub meshNow p.meshTimestamp)
    if timeDelta.natAbs > CLOCK_DESYNC_THRESHOLD_MS then (s, [])
    else
      let compensatedPositionMs :=
        if p.state = 1 ∧ 0 < timeDelta then
          (p.positionMs + timeDelta.toNat) % 2 ^ 32
        else p.positionMs
      let stateChangedToStopped := s.currentState = 1 ∧ p.state = 0
      let stateChangedToPlaying := s.currentState = 0 ∧ p.state = 1
      let s1 := { s with
        currentIndex := p.mediaIndex
        currentPositionMs := compensatedPositionMs
        currentState := p.state
        lastSyncTime := now
        linkLost := false }
      let s2 := if p.state = 1 then { s1 with localClockStartTime := now } else s1
      let idxChange := s2.lastSentIndex ≠ p.mediaIndex ∧ p.mediaIndex ≠ 0
      let s3 := if idxChange then
          { s2 with lastSentIndex := p.mediaIndex, lastCC100SendTime := now }
        else s2
      let evs1 := if idxChange then [midiSendCC100 p.mediaIndex] else []
      if stateChangedToPlaying then (s3, evs1)
      else if stateChangedToStopped then
        ({ s3 with lastSentIndex := 0, lastCC100SendTime := now },
          evs1 ++ [midiSendCC100 0])
      else if ccRepeatIntervalMs > 0 ∧ s3.currentState = 1 ∧ s3.currentIndex > 0 ∧
          u32sub now s3.lastCC100SendTime ≥ ccRepeatIntervalMs then
        ({ s3 with lastCC100SendTime := now }, evs1 ++ [midiSendCC100 s3.currentIndex])
      else (s3, evs1)

/-- C4: an inbound MediaSync whose layer matches but whose signed 32-bit
clock delta exceeds 200 ms in absolute value is discarded: the
`MediaSyncState` is unchanged and no CC message is emitted. -/
theorem mediaSync_desync_discard (sub : List Nat) (ccR : Nat) (p : MediaSyncPacket)
    (s : MediaSyncState) (meshNow now : Nat)
    (hlayer : strncmpEq16 p.layer sub = true)
    (hdelta : (toInt32 (u32sub meshNow p.meshTimestamp)).natAbs >
      CLOCK_DESYNC_THRESHOLD_MS) :
    processMediaSyncPacket sub ccR p s meshNow now = (s, []) := by
  simp only [processMediaSyncPacket, hlayer, Bool.true_eq_false, not_false_iff]
  rw [if_neg (by simp), if_pos hdelta]

/-- Witness for C4, the spec's own example: mesh clock 10000 ms, packet
`mesh_ts` 9700, so the delta is 300 and the packet is dropped. -/
theorem mediaSync_desync_discard_witness :
    (strncmpEq16 (List.replicate 16 0) (List.replicate 16 0) = true ∧
      (toInt32 (u32sub 10000 9700)).natAbs > CLOCK_DESYNC_THRESHOLD_MS) ∧
    processMediaSyncPacket (List.replicate 16 0) 0
      ⟨List.replicate 16 0, 1, 5000, 1, 9700⟩ {} 10000 42 = ({}, []) :=
  ⟨⟨by decide, by decide⟩,
    mediaSync_desync_discard (List.replicate 16 0) 0
      ⟨List.replicate 16 0, 1, 5000, 1, 9700⟩ {} 10000 42 (by decide) (by decide)⟩

/-- C6: for an accepted MediaSync (matching layer, |delta| ≤ 200 ms, and
no 32-bit overflow of the compensated sum), the stored
`currentPositionMs` is `position_ms + max(0, delta)` when the packet
state is playing, and `position_ms` unchanged when it is stopped. -/
theorem mediaSync_position_compensated (sub : List Nat) (ccR : Nat)
    (p : MediaSyncPacket) (s : MediaSyncState) (meshNow now : Nat)
    (hlayer : strncmpEq16 p.layer sub = true)
    (hdelta : (toInt32 (u32sub meshNow p.meshTimestamp)).natAbs ≤
      CLOCK_DESYNC_THRESHOLD_MS)
    (hpos : p.positionMs + CLOCK_DESYNC_THRESHOLD_MS < 2 ^ 32) :
    (p.state = 1 →
      (processMediaSyncPacket sub ccR p s meshNow now).1.currentPositionMs =
        p.positionMs + (max 0 (toInt32 (u32sub meshNow p.meshTimestamp))).toNat) ∧
    (p.state = 0 →
      (processMediaSyncPacket sub ccR p s meshNow now).1.currentPositionMs =
        p.positionMs) := by
  have hnot : ¬ (toInt32 (u32sub meshNow p.meshTimestamp)).natAbs >
      CLOCK_DESYNC_THRESHOLD_MS := by omega
  have hkey : (processMediaSyncPacket sub ccR p s meshNow now).1.currentPositionMs =
      if p.state = 1 ∧ 0 < toInt32 (u32sub meshNow p.meshTimestamp) then
        (p.positionMs + (toInt32 (u32sub meshNow p.meshTimestamp)).toNat) % 2 ^ 32
      else p.positionMs := by
    simp only [processMediaSyncPacket, hlayer, Bool.true_eq_false, not_false_iff]
    rw [if_neg (by simp), if_neg hnot]
    split_ifs <;> rfl
  constructor
  · intro hstate
    rw [hkey]
    by_cases hd : 0 < toInt32 (u32sub meshNow p.meshTimestamp)
    · rw [if_pos ⟨hstate, hd⟩, max_eq_right (le_of_lt hd)]
      simp only [CLOCK_DESYNC_THRESHOLD_MS] at hdelta hpos
      omega
    · rw [if_neg (fun hc => hd hc.2), max_eq_left (by omega)]
      simp
  · intro hstate
    rw [hkey, if_neg (fun hc => by omega)]

/-- Witness for C6: mesh clock 1000, packet `mesh_ts` 950 (delta 50),
position 12345, state playing. -/
theorem mediaSync_position_compensated_witness :
    (strncmpEq16 (List.replicate 16 0) (List.replicate 16 0) = true ∧
      (toInt32 (u32sub 1000 950)).natAbs ≤ CLOCK_DESYNC_THRESHOLD_MS ∧
      12345 + CLOCK_DESYNC_THRESHOLD_MS < 2 ^ 32) ∧
    ((1 = 1 →
      (processMediaSyncPacket (List.replicate 16 0) 0
        ⟨List.replicate 16 0, 3, 12345, 1, 950⟩ {} 1000 7).1.currentPositionMs =
        12345 + (max 0 (toInt32 (u32sub 1000 950))).toNat) ∧
     (1 = 0 →
      (processMediaSyncPacket (List.replicate 16 0) 0
        ⟨List.replicate 16 0, 3, 12345, 1, 950⟩ {} 1000 7).1.currentPositionMs =
        12345)) :=
  ⟨⟨by decide, by decide, by decide⟩,
    mediaSync_position_compensated (List.replicate 16 0) 0
      ⟨List.replicate 16 0, 3, 12345, 1, 950⟩ {} 1000 7
      (by decide) (by decide) (by decide)⟩

/-- C7: an accepted MediaSync with state stopped, received while the
receiver is playing, makes it emit CC#100 with value 0 on channel 1
exactly once, reset `lastSentIndex` to 0 and move `currentState` to
stopped.  (The receiver-side handler has no notion of the sender's
`connected` flag, so this holds regardless of it.) -/
theorem mediaSync_stop_emits_cc0 (sub : List Nat) (ccR : Nat) (p : MediaSyncPacket)
    (s : MediaSyncState) (meshNow now : Nat)
    (hlayer : strncmpEq16 p.layer sub = true)
    (hdelta : (toInt32 (u32sub meshNow p.meshTimestamp)).natAbs ≤
      CLOCK_DESYNC_THRESHOLD_MS)
    (hstate : p.state = 0) (hcur : s.currentState = 1) :
    ((processMediaSyncPacket sub ccR p s meshNow now).2.filter
        (fun e => e.value == 0)).length = 1 ∧
    (processMediaSyncPacket sub ccR p s meshNow now).1.lastSentIndex = 0 ∧
    (processMediaSyncPacket sub ccR p s meshNow now).1.currentState = 0 ∧
    ∀ e ∈ (processMediaSyncPacket sub ccR p s meshNow now).2,
      e.controller = 100 ∧ e.channel = 1 := by
  have hnot : ¬ (toInt32 (u32sub meshNow p.meshTimestamp)).natAbs >
      CLOCK_DESYNC_THRESHOLD_MS := by omega
  simp only [processMediaSyncPacket, hlayer, Bool.true_eq_false, not_false_iff]
  rw [if_neg (by simp), if_neg hnot]
  have h1 : ¬ (s.currentState = 0 ∧ p.state = 1) := by rintro ⟨h, _⟩; omega
  have h2 : s.currentState = 1 ∧ p.state = 0 := ⟨hcur, hstate⟩
  have h3 : ¬ (p.state = 1 ∧ 0 < toInt32 (u32sub meshNow p.meshTimestamp)) := by
    rintro ⟨h, _⟩; omega
  have h4 : ¬ p.state = 1 := by omega
  rw [if_neg h3, if_neg h4, if_neg h1, if_pos h2]
  by_cases hidx : s.lastSentIndex ≠ p.mediaIndex ∧ p.mediaIndex ≠ 0
  · rw [if_pos hidx, if_pos hidx]
    refine ⟨?_, rfl, hstate, ?_⟩
    · have hb : (p.mediaIndex == 0) = false := by simp [hidx.2]
      simp [midiSendCC100, List.filter, hb]
    · intro e he
      simp only [List.mem_append, List.mem_singleton, List.mem_cons,
        List.not_mem_nil, or_false] at he
      rcases he with he | he <;> subst he <;> exact ⟨rfl, rfl⟩
  · rw [if_neg hidx, if_neg hidx]
    refine ⟨?_, rfl, hstate, ?_⟩
    · simp [midiSendCC100, List.filter]
    · intro e he
      simp only [List.nil_append, List.mem_singleton] at he
      subst he
      exact ⟨rfl, rfl⟩

/-- Witness for C7, the spec's "stop while silent" scenario: a stop
packet for the subscribed layer while playing yields exactly one
CC#100 = 0. -/
theorem mediaSync_stop_emits_cc0_witness :
    (strncmpEq16 (List.replicate 16 0) (List.replicate 16 0) = true ∧
      (toInt32 (u32sub 6000 5900)).natAbs ≤ CLOCK_DESYNC_THRESHOLD_MS ∧
      (0 : Nat) = 0 ∧
      ({ currentState := 1, currentIndex := 7, lastSentIndex := 7 } :
        MediaSyncState).currentState = 1) ∧
    (((processMediaSyncPacket (List.replicate 16 0) 0
        ⟨List.replicate 16 0, 0, 0, 0, 5900⟩
        { currentState := 1, currentIndex := 7, lastSentIndex := 7 } 6000 9).2.filter
          (fun e => e.value == 0)).length = 1 ∧
      (processMediaSyncPacket (List.replicate 16 0) 0
        ⟨List.replicate 16 0, 0, 0, 0, 5900⟩
        { currentState := 1, currentIndex := 7, lastSentIndex := 7 } 6000 9).1.lastSentIndex = 0 ∧
      (processMediaSyncPacket (List.replicate 16 0) 0
        ⟨List.replicate 16 0, 0, 0, 0, 5900⟩
        { currentState := 1, currentIndex := 7, lastSentIndex := 7 } 6000 9).1.currentState = 0 ∧
      ∀ e ∈ (processMediaSyncPacket (List.replicate 16 0) 0
        ⟨List.replicate 16 0, 0, 0, 0, 5900⟩
        { currentState := 1, currentIndex := 7, lastSentIndex := 7 } 6000 9).2,
        e.controller = 100 ∧ e.channel = 1) :=
  ⟨⟨by decide, by decide, rfl, rfl⟩,
    mediaSync_stop_emits_cc0 (List.replicate 16 0) 0
      ⟨List.replicate 16 0, 0, 0, 0, 5900⟩
      { currentState := 1, currentIndex := 7, lastSentIndex := 7 } 6000 9
      (by decide) (by decide) rfl rfl⟩

/-! ## Receiver link-lost handling (spec §4.7)

The wireless-task loop that performs the freewheel/link-lost check is
not among the sources under `src/` — `src/Nowde/src/main.cpp` is an
earlier monolithic revision without media sync, and the modular
revision's task loop is absent; only the state fields
(`MediaSyncState.linkLost`, `stopOnLinkLost`, `lastSyncTime`) and the
constant `LINK_LOST_TIMEOUT_MS` are declared in `nowde_config.h`. -/

/-- Modelled from the spec: the missing receiver-task link-lost check.
Spec §4.7: "If no MediaSync for the subscribed layer arrives within
`LINK_LOST_TIMEOUT` (3000 ms) while playing, set `link_lost`. If
`stop_on_link_lost` is true, transition to stopped and emit
CC#100 = 0; otherwise continue freewheeling indefinitely on the local
clock." -/
def linkLostTick (s : MediaSyncState) (now : Nat) : MediaSyncState × List CCEvent :=
  if s.currentState = 1 ∧ u32sub now s.lastSyncTime > LINK_LOST_TIMEOUT_MS then
    if s.stopOnLinkLost then
      ({ s with linkLost := true, currentState := 0 }, [midiSendCC100 0])
    else
      ({ s with linkLost := true }, [])
  else (s, [])

/-- C1: while playing with `stop_on_link_lost = true`, once 3000 ms pass
with no sync the node sets `link_lost`, moves to stopped, emits exactly
one CC#100 = 0, and any later tick without a new sync leaves it stopped
and emits nothing. -/
theorem linkLost_stops_once (s : MediaSyncState) (now : Nat)
    (hplay : s.currentState = 1) (hstop : s.stopOnLinkLost = true)
    (htimeout : u32sub now s.lastSyncTime > LINK_LOST_TIMEOUT_MS) :
    (linkLostTick s now).1.linkLost = true ∧
    (linkLostTick s now).1.currentState = 0 ∧
    (linkLostTick s now).2 = [midiSendCC100 0] ∧
    ∀ later, linkLostTick (linkLostTick s now).1 later = ((linkLostTick s now).1, []) := by
  refine ⟨?_, ?_, ?_, ?_⟩
  · simp [linkLostTick, hplay, htimeout, hstop]
  · simp [linkLostTick, hplay, htimeout, hstop]
  · simp [linkLostTick, hplay, htimeout, hstop]
  · intro later
    simp [linkLostTick, hplay, htimeout, hstop]

/-- Witness for C1: a playing receiver whose last sync was at 0 ms,
ticked at 3001 ms, then again at 10000 ms. -/
theorem linkLost_stops_once_witness :
    (({ currentState := 1 } : MediaSyncState).currentState = 1 ∧
      ({ currentState := 1 } : MediaSyncState).stopOnLinkLost = true ∧
      u32sub 3001 ({ currentState := 1 } : MediaSyncState).lastSyncTime >
        LINK_LOST_TIMEOUT_MS) ∧
    (linkLostTick ({ currentState := 1 } : MediaSyncState) 3001).1.linkLost = true ∧
    (linkLostTick ({ currentState := 1 } : MediaSyncState) 3001).1.currentState = 0 ∧
    (linkLostTick ({ currentState := 1 } : MediaSyncState) 3001).2 = [midiSendCC100 0] ∧
    linkLostTick (linkLostTick ({ currentState := 1 } : MediaSyncState) 3001).1 10000 =
      ((linkLostTick ({ currentState := 1 } : MediaSyncState) 3001).1, []) :=
  ⟨⟨rfl, rfl, by decide⟩,
    (linkLost_stops_once { currentState := 1 } 3001 rfl rfl (by decide)).1,
    (linkLost_stops_once { currentState := 1 } 3001 rfl rfl (by decide)).2.1,
    (linkLost_stops_once { currentState := 1 } 3001 rfl rfl (by decide)).2.2.1,
    (linkLost_stops_once { currentState := 1 } 3001 rfl rfl (by decide)).2.2.2 10000⟩

/-! ## Sender-side receiver table cleanup (`sender_mode.cpp` lines 10–32) -/

/-- The per-row action of `cleanupReceiverTable` (`sender_mode.cpp`
lines 13–15): an active, connected row silent for more than
`RECEIVER_TIMEOUT_MS` is marked `connected = false`; nothing else is
touched. -/
def cleanupReceiverEntry (now : Nat) (r : ReceiverEntry) : ReceiverEntry :=
  if r.active = true ∧ r.connected = true ∧
      u32sub now r.lastSeen > RECEIVER_TIMEOUT_MS then
    { r with connected := false }
  else r

/-- `cleanupReceiverTable` (`sender_mode.cpp` lines 10–32): the loop over
all `MAX_RECEIVERS` slots. -/
def cleanupReceiverTable (table : List ReceiverEntry) (now : Nat) : List ReceiverEntry :=
  table.map (cleanupReceiverEntry now)

/-- Counterexample to C8: a row silent for 20 s (well beyond 10 s of
total silence) is still active after cleanup — rows are never freed. -/
theorem cleanupReceiverTable_never_frees :
    u32sub 20000 ((⟨List.replicate 6 1, List.replicate 16 65, List.replicate 8 0,
        0, true, true, 0⟩ : ReceiverEntry).lastSeen) ≥ 10000 ∧
    (cleanupReceiverTable [⟨List.replicate 6 1, List.replicate 16 65,
        List.replicate 8 0, 0, true, true, 0⟩] 20000).map (fun r => r.active) =
      [true] := by
  constructor
  · decide
  · decide

/-- C8 (amended): after `RECEIVER_TIMEOUT` (5000 ms) of silence an
active connected row is marked `connected = false`, but rows are
retained forever: `cleanupReceiverTable` never changes any row's
`active` flag, MAC, layer or `lastSeen`, no matter how long the
silence. -/
theorem cleanupReceiverTable_marks_missing (table : List ReceiverEntry) (now : Nat) :
    ((cleanupReceiverTable table now).map (fun r => r.active) =
      table.map (fun r => r.active)) ∧
    ((cleanupReceiverTable table now).map (fun r => r.mac) =
      table.map (fun r => r.mac)) ∧
    ((cleanupReceiverTable table now).map (fun r => r.layer) =
      table.map (fun r => r.layer)) ∧
    ((cleanupReceiverTable table now).map (fun r => r.lastSeen) =
      table.map (fun r => r.lastSeen)) ∧
    (∀ r : ReceiverEntry, r.active = true → r.connected = true →
      u32sub now r.lastSeen > RECEIVER_TIMEOUT_MS →
      (cleanupReceiverEntry now r).connected = false) ∧
    (∀ r : ReceiverEntry, u32sub now r.lastSeen ≤ RECEIVER_TIMEOUT_MS →
      cleanupReceiverEntry now r = r) := by
  refine ⟨?_, ?_, ?_, ?_, ?_, ?_⟩
  · simp only [cleanupReceiverTable, List.map_map]
    congr 1
    funext r
    simp only [Function.comp_apply, cleanupReceiverEntry]
    split <;> rfl
  · simp only [cleanupReceiverTable, List.map_map]
    congr 1
    funext r
    simp only [Function.comp_apply, cleanupReceiverEntry]
    split <;> rfl
  · simp only [cleanupReceiverTable, List.map_map]
    congr 1
    funext r
    simp only [Function.comp_apply, cleanupReceiverEntry]
    split <;> rfl
  · simp only [cleanupReceiverTable, List.map_map]
    congr 1
    funext r
    simp only [Function.comp_apply, cleanupReceiverEntry]
    split <;> rfl
  · intro r ha hc ht
    simp [cleanupReceiverEntry, ha, hc, ht]
  · intro r ht
    have : ¬ (r.active = true ∧ r.connected = true ∧
        u32sub now r.lastSeen > RECEIVER_TIMEOUT_MS) := by
      rintro ⟨_, _, h⟩; omega
    simp [cleanupReceiverEntry, this]

/-- Witness for C8 (amended): a connected row silent for 5001 ms is
marked missing; one refreshed 100 ms ago is untouched. -/
theorem cleanupReceiverTable_marks_missing_witness :
    ((cleanupReceiverTable [] 6000).map (fun r => r.active) = []) ∧
    ((⟨List.replicate 6 1, List.replicate 16 65, List.replicate 8 0,
        0, true, true, 0⟩ : ReceiverEntry).active = true ∧
      (cleanupReceiverEntry 5001 ⟨List.replicate 6 1, List.replicate 16 65,
        List.replicate 8 0, 0, true, true, 0⟩).connected = false) ∧
    (cleanupReceiverEntry 6000 ⟨List.replicate 6 1, List.replicate 16 65,
        List.replicate 8 0, 5900, true, true, 0⟩ =
      ⟨List.replicate 6 1, List.replicate 16 65, List.replicate 8 0,
        5900, true, true, 0⟩) :=
  ⟨(cleanupReceiverTable_marks_missing [] 6000).1,
    ⟨rfl, (cleanupReceiverTable_marks_missing [⟨List.replicate 6 1, List.replicate 16 65,
        List.replicate 8 0, 0, true, true, 0⟩] 5001).2.2.2.2.1
      ⟨List.replicate 6 1, List.replicate 16 65, List.replicate 8 0, 0, true, true, 0⟩
      rfl rfl (by decide)⟩,
    (cleanupReceiverTable_marks_missing [⟨List.replicate 6 1, List.replicate 16 65,
        List.replicate 8 0, 5900, true, true, 0⟩] 6000).2.2.2.2.2
      ⟨List.replicate 6 1, List.replicate 16 65, List.replicate 8 0, 5900, true, true, 0⟩
      (by decide)⟩

/-! ## Sender-side ReceiverInfo handling (`sender_mode.cpp` lines 215–319) -/

/-- `emptyReceiverEntry`: the zero-initialized receiver-table slot
(`nowde_state.cpp` line 11: `ReceiverEntry receiverTable[MAX_RECEIVERS] = {};`). -/
def emptyReceiverEntry : ReceiverEntry :=
  ⟨List.replicate 6 0, List.replicate 16 0, List.replicate 8 0, 0, false, false, 0⟩

/-- The zero-initialized `receiverTable` of `nowde_state.cpp`. -/
def initReceiverTable : List ReceiverEntry :=
  List.replicate 10 emptyReceiverEntry

/-- The matched-row update of `handleReceiverInfo` (`sender_mode.cpp`
lines 227–268): refresh `lastSeen`, set `connected`, copy the layer if
it changed.  The packet's `mediaIndex` is not copied. -/
def updateReceiverRow (r : ReceiverEntry) (info : ReceiverInfo) (now : Nat) :
    ReceiverEntry :=
  { r with
    lastSeen := now
    connected := true
    layer := if strncmpEq16 r.layer info.layer then r.layer
             else (strncpyN 16 info.layer).set 15 0 }

/-- The free-slot registration of `handleReceiverInfo` (`sender_mode.cpp`
lines 278–287): fill MAC, layer, version, `lastSeen`, `active`,
`connected`.  The slot's `mediaIndex` field is not assigned. -/
def registerReceiverRow (r : ReceiverEntry) (srcMac : List Nat) (info : ReceiverInfo)
    (now : Nat) : ReceiverEntry :=
  { r with
    mac := srcMac
    layer := (strncpyN 16 info.layer).set 15 0
    version := (strncpyN 8 info.version).set 7 0
    lastSeen := now
    active := true
    connected := true }

/-- Update the first active row matching the source MAC, as the scan loop
of `handleReceiverInfo` does (it breaks after the first match). -/
def updateFirstMatch (srcMac : List Nat) (info : ReceiverInfo) (now : Nat) :
    List ReceiverEntry → List ReceiverEntry
  | [] => []
  | r :: rest =>
      if r.active && macEqual r.mac srcMac then updateReceiverRow r info now :: rest
      else r :: updateFirstMatch srcMac info now rest

/-- Register into the first inactive slot, as `handleReceiverInfo` does
with its `freeSlot` index. -/
def insertFirstFree (srcMac : List Nat) (info : ReceiverInfo) (now : Nat) :
    List ReceiverEntry → List ReceiverEntry
  | [] => []
  | r :: rest =>
      if r.active then r :: insertFirstFree srcMac info now rest
      else registerReceiverRow r srcMac info now :: rest

/-- `handleReceiverInfo` (`sender_mode.cpp` lines 215–319), from the
struct view onward: update the matching active row if there is one,
otherwise register into the first free slot (dropping the packet when
the table is full). -/
def handleReceiverInfo (table : List ReceiverEntry) (srcMac : List Nat)
    (info : ReceiverInfo) (now : Nat) : List ReceiverEntry :=
  if table.any (fun r => r.active && macEqual r.mac srcMac) then
    updateFirstMatch srcMac info now table
  else
    insertFirstFree srcMac info now table

/-- The per-receiver raw record of `sendRunningState` (`sysex.cpp`
lines 504–529), whose final byte is the row's `mediaIndex`. -/
def receiverRawData (now : Nat) (r : ReceiverEntry) : List Nat :=
  r.mac ++ r.layer ++ r.version ++ be32 (u32sub now r.lastSeen) ++ [1] ++ [r.mediaIndex]

theorem updateFirstMatch_mediaIndex (srcMac : List Nat) (info : ReceiverInfo)
    (now : Nat) (table : List ReceiverEntry) :
    (updateFirstMatch srcMac info now table).map (fun r => r.mediaIndex) =
      table.map (fun r => r.mediaIndex) := by
  induction table with
  | nil => rfl
  | cons r rest ih =>
      simp only [updateFirstMatch]
      split
      · simp [updateReceiverRow]
      · simp [ih]

theorem insertFirstFree_mediaIndex (srcMac : List Nat) (info : ReceiverInfo)
    (now : Nat) (table : List ReceiverEntry) :
    (insertFirstFree srcMac info now table).map (fun r => r.mediaIndex) =
      table.map (fun r => r.mediaIndex) := by
  induction table with
  | nil => rfl
  | cons r rest ih =>
      simp only [insertFirstFree]
      split
      · simp [ih]
      · simp [registerReceiverRow]

/-- C10: `handleReceiverInfo` never writes the table's `mediaIndex`
field (the packet's `mediaIndex` is never copied); hence, starting from
the zero-initialized table, after any sequence of inbound ReceiverInfo
packets every row's `mediaIndex` is still 0, and the per-receiver
RUNNING_STATE record of any such row ends in the byte 0. -/
theorem handleReceiverInfo_mediaIndex_frame :
    (∀ (table : List ReceiverEntry) (srcMac : List Nat) (info : ReceiverInfo)
      (now : Nat),
      (handleReceiverInfo table srcMac info now).map (fun r => r.mediaIndex) =
        table.map (fun r => r.mediaIndex)) ∧
    (∀ events : List (List Nat × ReceiverInfo × Nat),
      ∀ r ∈ events.foldl
        (fun t e => handleReceiverInfo t e.1 e.2.1 e.2.2) initReceiverTable,
      r.mediaIndex = 0) ∧
    (∀ (now : Nat) (r : ReceiverEntry), r.mediaIndex = 0 →
      (receiverRawData now r).getLast? = some 0) := by
  have hframe : ∀ (table : List ReceiverEntry) (srcMac : List Nat)
      (info : ReceiverInfo) (now : Nat),
      (handleReceiverInfo table srcMac info now).map (fun r => r.mediaIndex) =
        table.map (fun r => r.mediaIndex) := by
    intro table srcMac info now
    simp only [handleReceiverInfo]
    split
    · exact updateFirstMatch_mediaIndex srcMac info now table
    · exact insertFirstFree_mediaIndex srcMac info now table
  refine ⟨hframe, ?_, ?_⟩
  · intro events
    suffices h : ∀ t : List ReceiverEntry, (∀ r ∈ t, r.mediaIndex = 0) →
        ∀ r ∈ events.foldl
          (fun t e => handleReceiverInfo t e.1 e.2.1 e.2.2) t,
        r.mediaIndex = 0 by
      refine h initReceiverTable ?_
      intro r hr
      simp only [initReceiverTable, List.mem_replicate] at hr
      rw [hr.2]
      rfl
    induction events with
    | nil => intro t ht r hr; exact ht r hr
    | cons e es ih =>
        intro t ht r hr
        refine ih (handleReceiverInfo t e.1 e.2.1 e.2.2) ?_ r hr
        intro r0 hr0
        have hmem : r0.mediaIndex ∈
            (handleReceiverInfo t e.1 e.2.1 e.2.2).map (fun r => r.mediaIndex) :=
          List.mem_map.mpr ⟨r0, hr0, rfl⟩
        rw [hframe t e.1 e.2.1 e.2.2] at hmem
        obtain ⟨r1, hr1, he⟩ := List.mem_map.mp hmem
        rw [← he]
        exact ht r1 hr1
  · intro now r h
    simp only [receiverRawData, h]
    exact List.getLast?_concat _

/-- Witness for C10: a ReceiverInfo carrying `mediaIndex = 9` registered
into the fresh table leaves every row's `mediaIndex` at 0, and the
RUNNING_STATE record of a zero row ends in 0. -/
theorem handleReceiverInfo_mediaIndex_frame_witness :
    ((handleReceiverInfo initReceiverTable [1, 2, 3, 4, 5, 6]
        ⟨65 :: List.replicate 15 0, 49 :: List.replicate 7 0, 9⟩ 100).map
        (fun r => r.mediaIndex) =
      initReceiverTable.map (fun r => r.mediaIndex)) ∧
    (receiverRawData 50 emptyReceiverEntry).getLast? = some 0 :=
  ⟨handleReceiverInfo_mediaIndex_frame.1 initReceiverTable [1, 2, 3, 4, 5, 6]
      ⟨65 :: List.replicate 15 0, 49 :: List.replicate 7 0, 9⟩ 100,
    handleReceiverInfo_mediaIndex_frame.2.2 50 emptyReceiverEntry rfl⟩

/-! ## SysEx command router (`sysex.cpp` lines 72–333) and host messages -/

/-- `NOWDE_VERSION` "1.0" as bytes. -/
def NOWDE_VERSION : List Nat := [49, 46, 48]

/-- The 8-byte null-padded version field used by HELLO and
ReceiverInfo. -/
def version8 : List Nat := (strncpyN 8 NOWDE_VERSION).set 7 0

/-- An outbound ESP-NOW datagram. -/
inductive EspMsg where
  | mediaSync (mac : List Nat) (packet : MediaSyncPacket)
  | sysexToPeer (mac : List Nat) (bytes : List Nat)
  | receiverInfoTo (mac : List Nat) (info : ReceiverInfo)
deriving Repr, DecidableEq

/-- `DelayedMediaSyncPacket` (`nowde_state.h` lines 31–36). -/
structure DelayedMediaSyncPacket where
  sendTime : Nat
  packet : MediaSyncPacket
  receiverMac : List Nat
  active : Bool
deriving Repr, DecidableEq

/-- The zero slot of the `delayedPackets` ring
(`nowde_state.cpp`: `DelayedMediaSyncPacket delayedPackets[...] = {};`). -/
def emptyDelayedPacket : DelayedMediaSyncPacket :=
  ⟨0, ⟨List.replicate 16 0, 0, 0, 0, 0⟩, List.replicate 6 0, false⟩

/-- The file-scope mutable state of `nowde_state.cpp` that the SysEx
router reads or writes. -/
structure NowdeState where
  senderModeEnabled : Bool
  receiverModeEnabled : Bool
  subscribedLayer : List Nat
  rfSimulationEnabled : Bool
  rfSimMaxDelayMs : Nat
  senderTable : List SenderEntry
  receiverTable : List ReceiverEntry
  mediaSync : MediaSyncState
  delayedPackets : List DelayedMediaSyncPacket
deriving Repr, DecidableEq

/-- The boot state of `nowde_state.cpp` lines 7–25: both modes off,
empty layer, RF simulation disabled with `rfSimMaxDelayMs = 400`,
zeroed tables. -/
def initNowdeState : NowdeState where
  senderModeEnabled := false
  receiverModeEnabled := false
  subscribedLayer := List.replicate 16 0
  rfSimulationEnabled := false
  rfSimMaxDelayMs := 400
  senderTable := List.replicate 10 ⟨List.replicate 6 0, 0, false⟩
  receiverTable := initReceiverTable
  mediaSync := {}
  delayedPackets := List.replicate 20 emptyDelayedPacket

/-- The environment read by the router: `millis()`,
`esp_reset_reason()`, `meshClock.meshMillis()`,
`meshClock.getSyncState() == SYNCED`, and the `random(...)` draw used
for the RF-simulation delay (indexed by enqueue count). -/
structure Env where
  now : Nat
  resetReason : Nat
  meshNow : Nat
  meshSynced : Bool
  rand : Nat → Nat

/-- The effect of one `handleSysExMessage` call: the new state, the
SysEx messages sent to the host (in order), the ESP-NOW datagrams sent
(in order), and the layer persisted to flash, if any. -/
structure SysExResult where
  state : NowdeState
  host : List (List Nat)
  esp : List EspMsg
  savedLayer : Option (List Nat)
deriving Repr, DecidableEq

/-- The no-output, no-state-change result of the router's silent early
returns. -/
def noEffect (st : NowdeState) : SysExResult :=
  ⟨st, [], [], none⟩

/-- `sendHello` (`sysex.cpp` lines 337–418), at SysEx-message level:
`F0 7D 20`, the 7-bit-encoded 8-byte version, the 7-bit-encoded 32-bit
uptime, the reset-reason byte masked to 7 bits, `F7`. -/
def helloMessage (now resetReason : Nat) : List Nat :=
  [0xF0, 0x7D, 0x20] ++ encode7bit version8 ++ encode7bit (be32 now) ++
    [resetReason % 128, 0xF7]

/-- `sendConfigState` (`sysex.cpp` lines 420–457):
`F0 7D 21 [enabled] [delay>>7 & 0x7F] [delay & 0x7F] F7`. -/
def configStateMessage (rfSimulationEnabled : Bool) (rfSimMaxDelayMs : Nat) :
    List Nat :=
  [0xF0, 0x7D, 0x21, if rfSimulationEnabled then 1 else 0,
    rfSimMaxDelayMs / 128 % 128, rfSimMaxDelayMs % 128, 0xF7]

/-- `sendErrorReport` (`sysex.cpp` lines 584–644):
`F0 7D 30 [code] [contextLength] [≤32 context bytes] F7`. -/
def errorReportMessage (errorCode : Nat) (context : List Nat) (contextLength : Nat) :
    List Nat :=
  [0xF0, 0x7D, 0x30, errorCode, contextLength] ++
    context.take (min contextLength 32) ++ [0xF7]

/-- `sendRunningState` (`sysex.cpp` lines 459–582): `F0 7D 22`, encoded
uptime, mesh-sync flag, active-receiver count, one encoded
`receiverRawData` record per active row, `F7`. -/
def runningStateMessage (st : NowdeState) (env : Env) : List Nat :=
  [0xF0, 0x7D, 0x22] ++ encode7bit (be32 env.now) ++
    [if env.meshSynced then 1 else 0,
      (st.receiverTable.filter (fun r => r.active)).length] ++
    ((st.receiverTable.filter (fun r => r.active)).map
      (fun r => encode7bit (receiverRawData env.now r))).flatten ++ [0xF7]

/-- `sendReceiverInfo` (`receiver_mode.cpp` lines 32–54): when receiver
mode is on and the layer is nonempty, unicast a ReceiverInfo (with the
current media index) to every active sender. -/
def sendReceiverInfoMsgs (st : NowdeState) : List EspMsg :=
  if st.receiverModeEnabled = true ∧ strlenL st.subscribedLayer ≠ 0 then
    (st.senderTable.filter (fun s => s.active)).map
      (fun s => EspMsg.receiverInfoTo s.mac
        ⟨(strncpyN 16 st.subscribedLayer).set 15 0, version8,
          st.mediaSync.currentIndex⟩)
  else []

/-- The target layer of a MEDIA_SYNC command (`sysex.cpp` lines
158–160): 16 bytes at offset 3, with the last byte forced to null. -/
def mediaSyncTarget (bytes : List Nat) : List Nat :=
  ((bytes.drop 3).take 16).set 15 0

/-- The decoded 32-bit position of a MEDIA_SYNC command (`sysex.cpp`
lines 166–178): one MSB byte at offset 20, four data bytes at offsets
21–24 with their MSBs restored, combined big-endian. -/
def mediaSyncPosition (bytes : List Nat) : Nat :=
  (if bytes.getD 20 0 / 2 ^ 0 % 2 = 1 then bytes.getD 21 0 ||| 128 else bytes.getD 21 0)
      <<< 24 |||
  (if bytes.getD 20 0 / 2 ^ 1 % 2 = 1 then bytes.getD 22 0 ||| 128 else bytes.getD 22 0)
      <<< 16 |||
  (if bytes.getD 20 0 / 2 ^ 2 % 2 = 1 then bytes.getD 23 0 ||| 128 else bytes.getD 23 0)
      <<< 8 |||
  (if bytes.getD 20 0 / 2 ^ 3 % 2 = 1 then bytes.getD 24 0 ||| 128 else bytes.getD 24 0)

/-- The MediaSync datagram built by the MEDIA_SYNC handler (`sysex.cpp`
lines 195–201); `meshTimestamp` is the mesh-clock value read at line
180, before any RF-simulation delay. -/
def mediaSyncPacketOf (bytes : List Nat) (meshNow : Nat) : MediaSyncPacket where
  layer := (strncpyN 16 (mediaSyncTarget bytes)).set 15 0
  mediaIndex := bytes.getD 19 0
  positionMs := mediaSyncPosition bytes
  state := bytes.getD 25 0
  meshTimestamp := meshNow

/-- Store into the first inactive slot of the delayed-packet ring
(`sysex.cpp` lines 216–225); a full ring drops the entry. -/
def enqueueDelayed (q : List DelayedMediaSyncPacket) (d : DelayedMediaSyncPacket) :
    List DelayedMediaSyncPacket :=
  match q with
  | [] => []
  | e :: rest => if e.active then e :: enqueueDelayed rest d else d :: rest

/-- The RF-simulation branch of the MEDIA_SYNC fan-out: enqueue one
delayed copy per matching row, drawing `random(0, rfSimMaxDelayMs + 1)`
from the oracle for each. -/
def enqueueAll (rows : List ReceiverEntry) (target : List Nat)
    (pkt : MediaSyncPacket) (q : List DelayedMediaSyncPacket)
    (now maxDelay : Nat) (rand : Nat → Nat) : List DelayedMediaSyncPacket :=
  (rows.foldl
    (fun acc r =>
      if r.active = true ∧ strncmpEq16 r.layer target = true then
        (enqueueDelayed acc.1
          ⟨now + rand acc.2 % (maxDelay + 1), pkt, r.mac, true⟩, acc.2 + 1)
      else acc)
    (q, 0)).1

/-- The MEDIA_SYNC command handler (`sysex.cpp` lines 156–234): parse
the target layer, index, position and state; stamp the datagram with
the mesh clock; send to every active row on the target layer
(`connected` not consulted), or enqueue delayed copies when RF
simulation is on. -/
def handleMediaSyncCmd (st : NowdeState) (env : Env) (bytes : List Nat) :
    SysExResult :=
  if st.senderModeEnabled = true ∧ 27 ≤ bytes.length then
    let target := mediaSyncTarget bytes
    let pkt := mediaSyncPacketOf bytes env.meshNow
    if st.rfSimulationEnabled = false then
      ⟨st, [],
        (st.receiverTable.filter
          (fun r => r.active && strncmpEq16 r.layer target)).map
          (fun r => EspMsg.mediaSync r.mac pkt),
        none⟩
    else
      let q := enqueueAll st.receiverTable target pkt st.delayedPackets
        env.now st.rfSimMaxDelayMs env.rand
      ⟨{ st with delayedPackets := q }, [], [], none⟩
  else noEffect st

/-- The CHANGE_RECEIVER_LAYER command handler (`sysex.cpp` lines
235–326): on a receiver, adopt and persist the new layer and re-send
ReceiverInfo; on a sender, decode the target MAC and layer, and forward
a `F0 7D 11 <layer> F7` envelope to that receiver over ESP-NOW
(reporting RECEIVER_TIMEOUT when the MAC is not an active row). -/
def handleChangeReceiverLayerCmd (st : NowdeState) (bytes : List Nat) :
    SysExResult :=
  if st.receiverModeEnabled = true ∧ 4 ≤ bytes.length then
    let layerLen := min (bytes.length - 4) 15
    let newSub := (strncpyN 16 ((bytes.drop 3).take layerLen ++ [0])).set 15 0
    let st1 := { st with subscribedLayer := newSub }
    ⟨st1, [], sendReceiverInfoMsgs st1, some newSub⟩
  else if st.senderModeEnabled = true ∧ 29 ≤ bytes.length then
    let targetMac := decode7bit ((bytes.drop 3).take 7)
    let newLayer := (decode7bit ((bytes.drop 10).take 19)).set 15 0
    let layerLen := strlenL newLayer
    if st.receiverTable.any (fun r => r.active && macEqual r.mac targetMac) then
      ⟨st, [],
        [EspMsg.sysexToPeer targetMac
          ([0xF0, 0x7D, 0x11] ++ newLayer.take layerLen ++ [0xF7])],
        none⟩
    else
      ⟨st, [errorReportMessage 0x05 targetMac 6], [], none⟩
  else noEffect st

/-- The `switch (command)` of `handleSysExMessage` (`sysex.cpp` lines
100–332). -/
def handleCommand (st : NowdeState) (env : Env) (bytes : List Nat) (command : Nat) :
    SysExResult :=
  if command = 0x01 then
    ⟨{ st with senderModeEnabled := true },
      [helloMessage env.now env.resetReason,
        configStateMessage st.rfSimulationEnabled st.rfSimMaxDelayMs],
      [], none⟩
  else if command = 0x02 then
    if 6 ≤ bytes.length then
      let rfEnabled := bytes.getD 3 0 ≠ 0
      let delay := bytes.getD 4 0 % 128 * 128 + bytes.getD 5 0 % 128
      let st2 := { st with senderModeEnabled := true, rfSimulationEnabled := rfEnabled, rfSimMaxDelayMs := delay }
      ⟨st2, [configStateMessage rfEnabled delay], [], none⟩
    else
      ⟨st, [errorReportMessage 0x01 [] 0], [], none⟩
  else if command = 0x03 then
    if st.senderModeEnabled then ⟨st, [runningStateMessage st env], [], none⟩
    else noEffect st
  else if command = 0x10 then
    handleMediaSyncCmd st env bytes
  else if command = 0x11 then
    handleChangeReceiverLayerCmd st bytes
  else
    ⟨st, [errorReportMessage 0x02 [command] 1], [], none⟩

/-- `handleSysExMessage` (`sysex.cpp` lines 72–333): validate the
envelope (`F0 … F7`), silently ignore foreign manufacturer bytes,
report a parse error for 3-byte `7D` frames, then dispatch on the
command byte. -/
def handleSysExMessage (st : NowdeState) (env : Env) (bytes : List Nat) :
    SysExResult :=
  if bytes.length < 2 then noEffect st
  else if ¬ (bytes.getD 0 0 = 0xF0 ∧ bytes.getD (bytes.length - 1) 0 = 0xF7) then
    noEffect st
  else if bytes.length < 3 ∨ bytes.getD 1 0 ≠ 0x7D then noEffect st
  else if bytes.length < 4 then
    ⟨st, [errorReportMessage 0x02 (bytes.take 3) bytes.length], [], none⟩
  else
    handleCommand st env bytes (bytes.getD 2 0)

/-- C2: with RF simulation off, a MEDIA_SYNC host command makes the
sender emit one MediaSync datagram, stamped with the mesh-clock value,
to exactly the active receiver-table rows whose layer equals the target
layer — `connected` is not consulted. -/
theorem mediaSync_fanout (st : NowdeState) (env : Env) (bytes : List Nat)
    (hsm : st.senderModeEnabled = true) (hsim : st.rfSimulationEnabled = false)
    (hlen : 27 ≤ bytes.length)
    (h0 : bytes.getD 0 0 = 0xF0) (h1 : bytes.getD 1 0 = 0x7D)
    (h2 : bytes.getD 2 0 = 0x10)
    (hend : bytes.getD (bytes.length - 1) 0 = 0xF7) :
    handleSysExMessage st env bytes =
      ⟨st, [],
        (st.receiverTable.filter
          (fun r => r.active && strncmpEq16 r.layer (mediaSyncTarget bytes))).map
          (fun r => EspMsg.mediaSync r.mac (mediaSyncPacketOf bytes env.meshNow)),
        none⟩ ∧
    (mediaSyncPacketOf bytes env.meshNow).meshTimestamp = env.meshNow := by
  constructor
  · have hA : ¬ bytes.length < 2 := by omega
    have hB : ¬ ¬ (bytes.getD 0 0 = 0xF0 ∧ bytes.getD (bytes.length - 1) 0 = 0xF7) :=
      not_not_intro ⟨h0, hend⟩
    have hC : ¬ (bytes.length < 3 ∨ bytes.getD 1 0 ≠ 0x7D) := by
      rw [not_or]
      exact ⟨by omega, not_not_intro h1⟩
    have hD : ¬ bytes.length < 4 := by omega
    rw [handleSysExMessage, if_neg hA, if_neg hB, if_neg hC, if_neg hD, h2]
    rw [handleCommand, if_neg (by norm_num), if_neg (by norm_num),
      if_neg (by norm_num), if_pos rfl]
    simp only [handleMediaSyncCmd, hsm, hsim, hlen, true_and, if_pos, if_true]
  · rfl

/-- Witness for C2, the spec's fan-out scenario: two active rows on
layers "A" and "B" (the "A" row not even `connected`), a MEDIA_SYNC
targeting "A" with index 7, position 12345 ms, state 1: exactly one
datagram goes out, to the "A" row's MAC. -/
theorem mediaSync_fanout_witness :
    (({ initNowdeState with
        senderModeEnabled := true
        receiverTable :=
          [⟨[1, 1, 1, 1, 1, 1], 65 :: List.replicate 15 0, version8, 0, true, false, 0⟩,
           ⟨[2, 2, 2, 2, 2, 2], 66 :: List.replicate 15 0, version8, 0, true, true, 0⟩] } :
      NowdeState).senderModeEnabled = true) ∧
    handleSysExMessage
      { initNowdeState with
        senderModeEnabled := true
        receiverTable :=
          [⟨[1, 1, 1, 1, 1, 1], 65 :: List.replicate 15 0, version8, 0, true, false, 0⟩,
           ⟨[2, 2, 2, 2, 2, 2], 66 :: List.replicate 15 0, version8, 0, true, true, 0⟩] }
      ⟨0, 0, 5555, true, fun _ => 0⟩
      ([0xF0, 0x7D, 0x10] ++ (65 :: List.replicate 15 0) ++
        [7, 0, 0, 0, 48, 57, 1, 0xF7]) =
      ⟨{ initNowdeState with
          senderModeEnabled := true
          receiverTable :=
            [⟨[1, 1, 1, 1, 1, 1], 65 :: List.replicate 15 0, version8, 0, true, false, 0⟩,
             ⟨[2, 2, 2, 2, 2, 2], 66 :: List.replicate 15 0, version8, 0, true, true, 0⟩] },
        [],
        [EspMsg.mediaSync [1, 1, 1, 1, 1, 1]
          (mediaSyncPacketOf
            ([0xF0, 0x7D, 0x10] ++ (65 :: List.replicate 15 0) ++
              [7, 0, 0, 0, 48, 57, 1, 0xF7]) 5555)],
        none⟩ ∧
    (mediaSyncPacketOf
        ([0xF0, 0x7D, 0x10] ++ (65 :: List.replicate 15 0) ++
          [7, 0, 0, 0, 48, 57, 1, 0xF7]) 5555).mediaIndex = 7 ∧
    (mediaSyncPacketOf
        ([0xF0, 0x7D, 0x10] ++ (65 :: List.replicate 15 0) ++
          [7, 0, 0, 0, 48, 57, 1, 0xF7]) 5555).positionMs = 12345 ∧
    (mediaSyncPacketOf
        ([0xF0, 0x7D, 0x10] ++ (65 :: List.replicate 15 0) ++
          [7, 0, 0, 0, 48, 57, 1, 0xF7]) 5555).state = 1 ∧
    (mediaSyncPacketOf
        ([0xF0, 0x7D, 0x10] ++ (65 :: List.replicate 15 0) ++
          [7, 0, 0, 0, 48, 57, 1, 0xF7]) 5555).meshTimestamp = 5555 := by
  refine ⟨rfl, ?_, by decide, by decide, by decide,
    (mediaSync_fanout
      { initNowdeState with
        senderModeEnabled := true
        receiverTable :=
          [⟨[1, 1, 1, 1, 1, 1], 65 :: List.replicate 15 0, version8, 0, true, false, 0⟩,
           ⟨[2, 2, 2, 2, 2, 2], 66 :: List.replicate 15 0, version8, 0, true, true, 0⟩] }
      ⟨0, 0, 5555, true, fun _ => 0⟩
      ([0xF0, 0x7D, 0x10] ++ (65 :: List.replicate 15 0) ++
        [7, 0, 0, 0, 48, 57, 1, 0xF7])
      rfl rfl (by decide) (by decide) (by decide) (by decide) (by decide)).2⟩
  rw [(mediaSync_fanout
      { initNowdeState with
        senderModeEnabled := true
        receiverTable :=
          [⟨[1, 1, 1, 1, 1, 1], 65 :: List.replicate 15 0, version8, 0, true, false, 0⟩,
           ⟨[2, 2, 2, 2, 2, 2], 66 :: List.replicate 15 0, version8, 0, true, true, 0⟩] }
      ⟨0, 0, 5555, true, fun _ => 0⟩
      ([0xF0, 0x7D, 0x10] ++ (65 :: List.replicate 15 0) ++
        [7, 0, 0, 0, 48, 57, 1, 0xF7])
      rfl rfl (by decide) (by decide) (by decide) (by decide) (by decide)).1]
  decide

/-- Counterexample to C3: at the boot defaults
(`rfSimMaxDelayMs = 400`, `nowde_state.cpp` line 24), the CONFIG_STATE
reply to `F0 7D 01 F7` is not `F0 7D 21 00 00 00 F7` — its delay bytes
are `03 10` (400 ms), not `00 00`. -/
theorem queryConfig_default_delay_counterexample :
    (handleSysExMessage initNowdeState ⟨0, 0, 0, true, fun _ => 0⟩
        [0xF0, 0x7D, 0x01, 0xF7]).host.getD 1 [] ≠
      [0xF0, 0x7D, 0x21, 0, 0, 0, 0xF7] := by
  decide

/-- C3 (amended): on `F0 7D 01 F7` a freshly booted node enables sender
mode and replies with HELLO (opcode 0x20, payload the 7-bit-encoded
8-byte null-padded version "1.0", the encoded uptime, and the
reset-reason byte) followed by CONFIG_STATE `F0 7D 21 00 03 10 F7` —
simulation disabled with the default delay 400 ms. -/
theorem queryConfig_reply (env : Env) :
    handleSysExMessage initNowdeState env [0xF0, 0x7D, 0x01, 0xF7] =
      ⟨{ initNowdeState with senderModeEnabled := true },
        [helloMessage env.now env.resetReason,
          [0xF0, 0x7D, 0x21, 0, 3, 16, 0xF7]],
        [], none⟩ ∧
    helloMessage env.now env.resetReason =
      [0xF0, 0x7D, 0x20] ++ encode7bit version8 ++ encode7bit (be32 env.now) ++
        [env.resetReason % 128, 0xF7] := by
  constructor
  · rw [handleSysExMessage]
    norm_num
    rw [handleCommand, if_pos rfl]
    rfl
  · rfl

/-- Counterexample to C9: a malformed PUSH_FULL_CONFIG
(`F0 7D 02 00 F7`, payload too short for opcode 0x02) produces an
ERROR_REPORT with code CONFIG_INVALID (0x01), not SYSEX_PARSE_ERROR
(0x02); and a too-short MEDIA_SYNC (`F0 7D 10 F7` on a sender) has no
effect at all: no reply, no datagram, no state change. -/
theorem sysex_shape_error_counterexample :
    (handleSysExMessage initNowdeState ⟨0, 0, 0, true, fun _ => 0⟩
        [0xF0, 0x7D, 0x02, 0x00, 0xF7]).host =
      [[0xF0, 0x7D, 0x30, 0x01, 0, 0xF7]] ∧
    (0x01 : Nat) ≠ 0x02 ∧
    handleSysExMessage { initNowdeState with senderModeEnabled := true }
        ⟨0, 0, 0, true, fun _ => 0⟩ [0xF0, 0x7D, 0x10, 0xF7] =
      noEffect { initNowdeState with senderModeEnabled := true } := by
  refine ⟨by decide, by decide, by decide⟩

/-- C9 (amended): a `7D`-tagged SysEx with an unknown opcode triggers
ERROR_REPORT with SYSEX_PARSE_ERROR and no state change; so does a
`7D`-tagged frame of total length 3; a PUSH_FULL_CONFIG shorter than 6
bytes triggers ERROR_REPORT with CONFIG_INVALID instead; a MEDIA_SYNC
shorter than 27 bytes, or a CHANGE_RECEIVER_LAYER shorter than 29 bytes
on a node without receiver mode, is silently ignored with no reply, no
datagram and no state change; and a message with any other manufacturer
byte likewise produces no reply, no datagram and no state change. -/
theorem sysex_error_handling (st : NowdeState) (env : Env) (bytes : List Nat) :
    (∀ (_ : bytes.getD 0 0 = 0xF0) (_ : bytes.getD (bytes.length - 1) 0 = 0xF7)
       (_ : bytes.getD 1 0 = 0x7D) (_ : 4 ≤ bytes.length)
       (_ : bytes.getD 2 0 ∉ ([0x01, 0x02, 0x03, 0x10, 0x11] : List Nat)),
      handleSysExMessage st env bytes =
        ⟨st, [errorReportMessage 0x02 [bytes.getD 2 0] 1], [], none⟩) ∧
    (∀ (_ : bytes.getD 0 0 = 0xF0) (_ : bytes.getD (bytes.length - 1) 0 = 0xF7)
       (_ : bytes.getD 1 0 = 0x7D) (_ : bytes.length = 3),
      handleSysExMessage st env bytes =
        ⟨st, [errorReportMessage 0x02 (bytes.take 3) 3], [], none⟩) ∧
    (∀ (_ : bytes.getD 0 0 = 0xF0) (_ : bytes.getD (bytes.length - 1) 0 = 0xF7)
       (_ : bytes.getD 1 0 = 0x7D) (_ : bytes.getD 2 0 = 0x02)
       (_ : 4 ≤ bytes.length) (_ : bytes.length < 6),
      handleSysExMessage st env bytes =
        ⟨st, [errorReportMessage 0x01 [] 0], [], none⟩) ∧
    (∀ (_ : bytes.getD 0 0 = 0xF0) (_ : bytes.getD (bytes.length - 1) 0 = 0xF7)
       (_ : bytes.getD 1 0 = 0x7D) (_ : bytes.getD 2 0 = 0x10)
       (_ : 4 ≤ bytes.length) (_ : bytes.length < 27),
      handleSysExMessage st env bytes = noEffect st) ∧
    (∀ (_ : bytes.getD 0 0 = 0xF0) (_ : bytes.getD (bytes.length - 1) 0 = 0xF7)
       (_ : bytes.getD 1 0 = 0x7D) (_ : bytes.getD 2 0 = 0x11)
       (_ : st.receiverModeEnabled = false)
       (_ : 4 ≤ bytes.length) (_ : bytes.length < 29),
      handleSysExMessage st env bytes = noEffect st) ∧
    (bytes.getD 1 0 ≠ 0x7D → handleSysExMessage st env bytes = noEffect st) := by
  refine ⟨?_, ?_, ?_, ?_, ?_, ?_⟩
  · intro h0 hend h1 hlen hcmd
    simp only [List.mem_cons, List.mem_singleton, not_or, List.not_mem_nil,
      not_false_iff, and_true] at hcmd
    have hA : ¬ bytes.length < 2 := by omega
    have hB : ¬ ¬ (bytes.getD 0 0 = 0xF0 ∧ bytes.getD (bytes.length - 1) 0 = 0xF7) :=
      not_not_intro ⟨h0, hend⟩
    have hC : ¬ (bytes.length < 3 ∨ bytes.getD 1 0 ≠ 0x7D) := by
      rw [not_or]
      exact ⟨by omega, not_not_intro h1⟩
    have hD : ¬ bytes.length < 4 := by omega
    rw [handleSysExMessage, if_neg hA, if_neg hB, if_neg hC, if_neg hD]
    rw [handleCommand, if_neg hcmd.1, if_neg hcmd.2.1, if_neg hcmd.2.2.1,
      if_neg hcmd.2.2.2.1, if_neg hcmd.2.2.2.2]
  · intro h0 hend h1 hlen
    have hA : ¬ bytes.length < 2 := by omega
    have hB : ¬ ¬ (bytes.getD 0 0 = 0xF0 ∧ bytes.getD (bytes.length - 1) 0 = 0xF7) :=
      not_not_intro ⟨h0, hend⟩
    have hC : ¬ (bytes.length < 3 ∨ bytes.getD 1 0 ≠ 0x7D) := by
      rw [not_or]
      exact ⟨by omega, not_not_intro h1⟩
    have hD : bytes.length < 4 := by omega
    rw [handleSysExMessage, if_neg hA, if_neg hB, if_neg hC, if_pos hD, hlen]
  · intro h0 hend h1 hcmd hlen4 hlen6
    have hA : ¬ bytes.length < 2 := by omega
    have hB : ¬ ¬ (bytes.getD 0 0 = 0xF0 ∧ bytes.getD (bytes.length - 1) 0 = 0xF7) :=
      not_not_intro ⟨h0, hend⟩
    have hC : ¬ (bytes.length < 3 ∨ bytes.getD 1 0 ≠ 0x7D) := by
      rw [not_or]
      exact ⟨by omega, not_not_intro h1⟩
    have hD : ¬ bytes.length < 4 := by omega
    rw [handleSysExMessage, if_neg hA, if_neg hB, if_neg hC, if_neg hD, hcmd]
    rw [handleCommand, if_neg (by norm_num), if_pos rfl, if_neg (by omega)]
  · intro h0 hend h1 hcmd hlen4 hlen27
    have hA : ¬ bytes.length < 2 := by omega
    have hB : ¬ ¬ (bytes.getD 0 0 = 0xF0 ∧ bytes.getD (bytes.length - 1) 0 = 0xF7) :=
      not_not_intro ⟨h0, hend⟩
    have hC : ¬ (bytes.length < 3 ∨ bytes.getD 1 0 ≠ 0x7D) := by
      rw [not_or]
      exact ⟨by omega, not_not_intro h1⟩
    have hD : ¬ bytes.length < 4 := by omega
    rw [handleSysExMessage, if_neg hA, if_neg hB, if_neg hC, if_neg hD, hcmd]
    rw [handleCommand, if_neg (by norm_num), if_neg (by norm_num),
      if_neg (by norm_num), if_pos rfl]
    rw [handleMediaSyncCmd, if_neg (by rintro ⟨_, h⟩; omega)]
  · intro h0 hend h1 hcmd hrcv hlen4 hlen29
    have hA : ¬ bytes.length < 2 := by omega
    have hB : ¬ ¬ (bytes.getD 0 0 = 0xF0 ∧ bytes.getD (bytes.length - 1) 0 = 0xF7) :=
      not_not_intro ⟨h0, hend⟩
    have hC : ¬ (bytes.length < 3 ∨ bytes.getD 1 0 ≠ 0x7D) := by
      rw [not_or]
      exact ⟨by omega, not_not_intro h1⟩
    have hD : ¬ bytes.length < 4 := by omega
    rw [handleSysExMessage, if_neg hA, if_neg hB, if_neg hC, if_neg hD, hcmd]
    rw [handleCommand, if_neg (by norm_num), if_neg (by norm_num),
      if_neg (by norm_num), if_neg (by norm_num), if_pos rfl]
    rw [handleChangeReceiverLayerCmd,
      if_neg (by rintro ⟨h, _⟩; rw [hrcv] at h; simp at h),
      if_neg (by rintro ⟨_, h⟩; omega)]
  · intro h1
    rw [handleSysExMessage]
    by_cases hA : bytes.length < 2
    · rw [if_pos hA]
    · rw [if_neg hA]
      by_cases hB : ¬ (bytes.getD 0 0 = 0xF0 ∧ bytes.getD (bytes.length - 1) 0 = 0xF7)
      · rw [if_pos hB]
      · rw [if_neg hB, if_pos (Or.inr h1)]

/-- Witness for C9 (amended): an unknown opcode `0x55`, a 3-byte `7D`
frame, a 5-byte PUSH_FULL_CONFIG, a 4-byte MEDIA_SYNC on a sender, a
5-byte CHANGE_RECEIVER_LAYER on a sender-only node, and a
universal-SysEx (`0x7E`) message. -/
theorem sysex_error_handling_witness :
    (handleSysExMessage initNowdeState ⟨0, 0, 0, true, fun _ => 0⟩
        [0xF0, 0x7D, 0x55, 0xF7] =
      ⟨initNowdeState, [errorReportMessage 0x02 [0x55] 1], [], none⟩) ∧
    (handleSysExMessage initNowdeState ⟨0, 0, 0, true, fun _ => 0⟩
        [0xF0, 0x7D, 0xF7] =
      ⟨initNowdeState,
        [errorReportMessage 0x02 [0xF0, 0x7D, 0xF7] 3], [], none⟩) ∧
    (handleSysExMessage initNowdeState ⟨0, 0, 0, true, fun _ => 0⟩
        [0xF0, 0x7D, 0x02, 0x00, 0xF7] =
      ⟨initNowdeState, [errorReportMessage 0x01 [] 0], [], none⟩) ∧
    (handleSysExMessage { initNowdeState with senderModeEnabled := true }
        ⟨0, 0, 0, true, fun _ => 0⟩ [0xF0, 0x7D, 0x10, 0xF7] =
      noEffect { initNowdeState with senderModeEnabled := true }) ∧
    (handleSysExMessage { initNowdeState with senderModeEnabled := true }
        ⟨0, 0, 0, true, fun _ => 0⟩ [0xF0, 0x7D, 0x11, 0x41, 0xF7] =
      noEffect { initNowdeState with senderModeEnabled := true }) ∧
    (handleSysExMessage initNowdeState ⟨0, 0, 0, true, fun _ => 0⟩
        [0xF0, 0x7E, 0x06, 0x01, 0xF7] = noEffect initNowdeState) :=
  ⟨(sysex_error_handling initNowdeState ⟨0, 0, 0, true, fun _ => 0⟩
      [0xF0, 0x7D, 0x55, 0xF7]).1 rfl rfl rfl (by decide) (by decide),
   (sysex_error_handling initNowdeState ⟨0, 0, 0, true, fun _ => 0⟩
      [0xF0, 0x7D, 0xF7]).2.1 rfl rfl rfl rfl,
   (sysex_error_handling initNowdeState ⟨0, 0, 0, true, fun _ => 0⟩
      [0xF0, 0x7D, 0x02, 0x00, 0xF7]).2.2.1 rfl rfl rfl rfl (by decide) (by decide),
   (sysex_error_handling { initNowdeState with senderModeEnabled := true }
      ⟨0, 0, 0, true, fun _ => 0⟩
      [0xF0, 0x7D, 0x10, 0xF7]).2.2.2.1 rfl rfl rfl rfl (by decide) (by decide),
   (sysex_error_handling { initNowdeState with senderModeEnabled := true }
      ⟨0, 0, 0, true, fun _ => 0⟩
      [0xF0, 0x7D, 0x11, 0x41, 0xF7]).2.2.2.2.1 rfl rfl rfl rfl rfl
      (by decide) (by decide),
   (sysex_error_handling initNowdeState ⟨0, 0, 0, true, fun _ => 0⟩
      [0xF0, 0x7E, 0x06, 0x01, 0xF7]).2.2.2.2.2 (by decide)⟩
